import Mathlib

/-!
Shallow embedding of the Autoparts ETL pipeline (src/data-pipeline.py) and
proofs about its transform, load and report phases.

Conventions of the embedding:
* pandas DataFrames become a list of column names (the schema) together with a
  list of typed rows; a column access on an absent column is the KeyError path;
* decimal prices become exact rationals; pandas/numpy `.round(2)` is
  round-half-to-even on the scaled value, as documented for `numpy.round`;
* a float division by zero yields the IEEE special values, modelled by the
  `posInf`/`negInf`/`nan` constructors of `Margen`;
* the PostgreSQL store becomes association lists keyed by SKU;
  `INSERT ... ON CONFLICT (sku) DO UPDATE ... ` affects exactly one row and,
  with `RETURNING`, returns that row in both the insert and the update branch,
  so the driver reports `rowcount = 1` either way;
* `CURRENT_TIMESTAMP` is an abstract tick `now : Nat` passed in;
* log messages become constructors of `LogEvent` carrying exactly the data the
  corresponding source message interpolates.
-/

namespace Autoparts

/-- Four-tier stock level, from `categorizar_stock` inside
`transform_product_data` (lines 122-130 of src/data-pipeline.py). -/
def categorizar_stock (stock_actual stock_minimo : Nat) : String :=
  if stock_actual = 0 then "SIN_STOCK"
  else if stock_actual ≤ stock_minimo then "CRÍTICO"
  else if stock_actual ≤ stock_minimo * 2 then "BAJO"
  else "NORMAL"

/-- Result of the profit-margin column: either a finite rational or one of the
IEEE special values that float division by zero produces in pandas. -/
inductive Margen where
  | val : ℚ → Margen
  | posInf : Margen
  | negInf : Margen
  | nan : Margen
  deriving DecidableEq

/-- Round a rational to the nearest integer, ties to even
(the rounding `numpy.round` documents). -/
def roundHalfEven (q : ℚ) : ℤ :=
  if q - ⌊q⌋ < 1/2 then ⌊q⌋
  else if 1/2 < q - ⌊q⌋ then ⌊q⌋ + 1
  else if ⌊q⌋ % 2 = 0 then ⌊q⌋ else ⌊q⌋ + 1

/-- `.round(2)` on a rational value. -/
def round2 (q : ℚ) : ℚ := (roundHalfEven (q * 100) : ℚ) / 100

/-- The `margen_ganancia` column:
`((precio_venta - precio_compra) / precio_compra * 100).round(2)`
(lines 117-119).  With `precio_compra = 0` the float division yields
`inf` / `-inf` / `nan` according to the sign of the numerator. -/
def margen_ganancia (precio_compra precio_venta : ℚ) : Margen :=
  if precio_compra = 0 then
    if 0 < precio_venta - precio_compra then Margen.posInf
    else if precio_venta - precio_compra < 0 then Margen.negInf
    else Margen.nan
  else Margen.val (round2 ((precio_venta - precio_compra) / precio_compra * 100))

/-- One raw inventory row.  `numero_parte` and `stock_maximo` are `Option`
because the source reads them with `row.get(...)` and a default. -/
structure InventoryRecord where
  sku : String
  nombre : String
  numero_parte : Option String
  categoria : String
  proveedor : String
  precio_compra : ℚ
  precio_venta : ℚ
  stock_actual : Nat
  stock_minimo : Nat
  stock_maximo : Option Nat
  ubicacion : String
  deriving DecidableEq

/-- A transformed row: the raw row plus the two derived columns added by
`transform_product_data`. -/
structure TransformedRecord where
  base : InventoryRecord
  margen_ganancia : Margen
  nivel_stock : String
  deriving DecidableEq

/-- An error raised inside `transform_product_data`: a pandas `KeyError` from
accessing an absent column, or the explicit `ValueError` listing every missing
required column (line 114). -/
inductive TransformError where
  | keyError : String → TransformError
  | missingColumns : List String → TransformError
  deriving DecidableEq

/-- Log lines emitted by the pipeline, carrying exactly the data the source
message interpolates.  `dupWarning` carries nothing: the duplicate-SKU message
(line 107) is a constant string. -/
inductive LogEvent where
  | dupWarning : LogEvent
  | priceWarning : Nat → LogEvent
  | transformOk : LogEvent
  | transformErrorLog : TransformError → LogEvent
  | catWarning : String → LogEvent
  | provWarning : String → LogEvent
  | loadErrorLog : LogEvent
  | rollback : LogEvent
  | commit : LogEvent
  | loadOk : Nat → Nat → LogEvent
  deriving DecidableEq

/-- `required_columns` of line 111. -/
def required_columns : List String :=
  ["sku", "nombre", "precio_compra", "precio_venta", "stock_actual", "stock_minimo"]

/-- `drop_duplicates(subset=['sku'], keep='first')` (line 108): keep a row iff
its SKU has not been seen in an earlier row. -/
def dedupBySku : List String → List InventoryRecord → List InventoryRecord
  | _, [] => []
  | seen, r :: t =>
    if r.sku ∈ seen then dedupBySku seen t
    else r :: dedupBySku (r.sku :: seen) t

/-- Add the two derived columns to one row (lines 117-132). -/
def derive (r : InventoryRecord) : TransformedRecord :=
  { base := r
    margen_ganancia := margen_ganancia r.precio_compra r.precio_venta
    nivel_stock := categorizar_stock r.stock_actual r.stock_minimo }

/-- The DataFrame after the duplicate-SKU step (lines 106-108): dropped to
first occurrences only when a duplicate was detected. -/
def deduped (rows : List InventoryRecord) : List InventoryRecord :=
  if (rows.map fun r => r.sku).Nodup then rows else dedupBySku [] rows

/-- The duplicate-SKU warning of line 107: a constant message, emitted iff a
duplicate was detected. -/
def dupLog (rows : List InventoryRecord) : List LogEvent :=
  if (rows.map fun r => r.sku).Nodup then [] else [LogEvent.dupWarning]

/-- `missing_columns` of line 112. -/
def missing_required (cols : List String) : List String :=
  required_columns.filter fun c => decide (c ∉ cols)

/-- `len(precios_invalidos)` of lines 135-137. -/
def anomaly_count (rows : List InventoryRecord) : Nat :=
  (rows.filter fun r => decide (r.precio_venta ≤ r.precio_compra)).length

/-- The price-anomaly warning of line 137, emitted iff some row has
`precio_venta <= precio_compra`. -/
def priceLog (rows : List InventoryRecord) : List LogEvent :=
  if anomaly_count rows = 0 then [] else [LogEvent.priceWarning (anomaly_count rows)]

/-- `transform_product_data` (lines 96-144).  Returns the transformed rows
(`none` when the `try` block raised and the `except` returned `None`) together
with the log lines emitted.  Order of operations follows the source: the
duplicate check reads column `'sku'` first (KeyError when absent), then the
required-column validation, then the derived columns and the price-anomaly
warning. -/
def transform_product_data (cols : List String) (rows : List InventoryRecord) :
    Option (List TransformedRecord) × List LogEvent :=
  if "sku" ∈ cols then
    if (missing_required cols).isEmpty then
      (some ((deduped rows).map derive),
        dupLog rows ++ priceLog (deduped rows) ++ [LogEvent.transformOk])
    else
      (none, dupLog rows
        ++ [LogEvent.transformErrorLog (TransformError.missingColumns (missing_required cols))])
  else
    (none, [LogEvent.transformErrorLog (TransformError.keyError "sku")])

/-- A row of the `productos` table.  `garantia_meses` is the defaulted warranty,
`activo` the active flag (table default `true`); `updated_at` is the abstract
timestamp tick. -/
structure Producto where
  nombre : String
  numero_parte : String
  categoria_id : Nat
  proveedor_id : Nat
  precio_compra : ℚ
  precio_venta : ℚ
  garantia_meses : Nat
  activo : Bool
  updated_at : Nat
  deriving DecidableEq

/-- A row of the `inventario` table, keyed by product SKU. -/
structure InventarioRow where
  stock_actual : Nat
  stock_minimo : Nat
  stock_maximo : Nat
  ubicacion : String
  updated_at : Nat
  deriving DecidableEq

/-- The relational store: two lookup tables (id, nombre) and the two
SKU-keyed tables, as association lists. -/
structure DB where
  categorias : List (Nat × String)
  proveedores : List (Nat × String)
  productos : List (String × Producto)
  inventario : List (String × InventarioRow)
  deriving DecidableEq

/-- First value stored under key `k` in an association list. -/
def alistFind (k : String) : List (String × α) → Option α
  | [] => none
  | (k', v) :: t => if k = k' then some v else alistFind k t

/-- `INSERT ... ON CONFLICT DO UPDATE` on an association list: update the
row stored under `k` with `upd` when present, append `ins` otherwise. -/
def alistUpsert (k : String) (upd : α → α) (ins : α) : List (String × α) → List (String × α)
  | [] => [(k, ins)]
  | (k', v) :: t => if k = k' then (k', upd v) :: t else (k', v) :: alistUpsert k upd ins t

/-- The dict comprehension `{nombre: id for id, nombre in cursor.fetchall()}`
(lines 159 and 162): later rows overwrite earlier ones on an equal name. -/
def buildNameMap (tbl : List (Nat × String)) : List (String × Nat) :=
  tbl.foldl (fun m p => alistUpsert p.2 (fun _ => p.1) p.1 m) []

/-- Python truthiness of `categoria_id` / `proveedor_id` after `dict.get`:
`None` and `0` are both falsy. -/
def pyFalsyId : Option Nat → Bool
  | none => true
  | some n => decide (n = 0)

/-- Lines 169-178: `dict.get` followed by `if not id:` → warn and use the
default id `1`.  Returns the resolved id and whether the warning fired. -/
def resolve_id (m : List (String × Nat)) (nombre : String) : Nat × Bool :=
  let v := alistFind nombre m
  if pyFalsyId v then (1, true) else (v.getD 1, false)

/-- The `productos` upsert (lines 181-197).  Returns the new table, the
driver-reported row count and the `RETURNING sku` result.  PostgreSQL's
`INSERT ... ON CONFLICT (sku) DO UPDATE ... RETURNING sku` affects exactly one
row and returns its sku in the insert branch and in the update branch alike,
so the row count is `1` and the returned value `some sku` in both. -/
def upsert_producto (r : TransformedRecord) (categoria_id proveedor_id now : Nat)
    (tbl : List (String × Producto)) :
    List (String × Producto) × Nat × Option String :=
  let nuevo : Producto :=
    { nombre := r.base.nombre
      numero_parte := r.base.numero_parte.getD ""
      categoria_id := categoria_id
      proveedor_id := proveedor_id
      precio_compra := r.base.precio_compra
      precio_venta := r.base.precio_venta
      garantia_meses := 12
      activo := true
      updated_at := now }
  let upd : Producto → Producto := fun p =>
    { p with
      nombre := r.base.nombre
      precio_compra := r.base.precio_compra
      precio_venta := r.base.precio_venta
      updated_at := now }
  (alistUpsert r.base.sku upd nuevo tbl, 1, some r.base.sku)

/-- The `inventario` upsert (lines 207-220).  `stock_maximo` is set only on
insert, defaulting to `stock_minimo * 4` when the record does not supply it. -/
def upsert_inventario (r : TransformedRecord) (now : Nat)
    (tbl : List (String × InventarioRow)) : List (String × InventarioRow) :=
  let nuevo : InventarioRow :=
    { stock_actual := r.base.stock_actual
      stock_minimo := r.base.stock_minimo
      stock_maximo := r.base.stock_maximo.getD (r.base.stock_minimo * 4)
      ubicacion := r.base.ubicacion
      updated_at := now }
  let upd : InventarioRow → InventarioRow := fun i =>
    { i with
      stock_actual := r.base.stock_actual
      stock_minimo := r.base.stock_minimo
      ubicacion := r.base.ubicacion
      updated_at := now }
  alistUpsert r.base.sku upd nuevo tbl

/-- Working state of the load loop: the transaction's view of the store, the
two counters of lines 164-165 and the log lines emitted so far. -/
structure LoadState where
  db : DB
  productos_procesados : Nat
  productos_actualizados : Nat
  trace : List LogEvent
  deriving DecidableEq

/-- The body of the `for` loop of `load_to_database` (lines 167-220) for one
record: resolve the two ids, upsert `productos`, update the counters from the
driver-reported effect exactly as lines 199-204 do, upsert `inventario`. -/
def load_record (cmap pmap : List (String × Nat)) (now : Nat)
    (st : LoadState) (r : TransformedRecord) : LoadState :=
  let c := resolve_id cmap r.base.categoria
  let p := resolve_id pmap r.base.proveedor
  let warns : List LogEvent :=
    (if c.2 then [LogEvent.catWarning r.base.categoria] else [])
      ++ (if p.2 then [LogEvent.provWarning r.base.proveedor] else [])
  let up := upsert_producto r c.1 p.1 now st.db.productos
  let counters : Nat × Nat :=
    match up.2.2 with
    | some _ =>
      if up.2.1 = 1 then (st.productos_procesados + 1, st.productos_actualizados)
      else (st.productos_procesados, st.productos_actualizados + 1)
    | none => (st.productos_procesados, st.productos_actualizados)
  let inv := upsert_inventario r now st.db.inventario
  { db := { st.db with productos := up.1, inventario := inv }
    productos_procesados := counters.1
    productos_actualizados := counters.2
    trace := st.trace ++ warns }

/-- The load loop with store-error injection: `errs i = true` models a
psycopg2 exception raised while executing the statements of the record at
position `i`.  On error the loop aborts with the log emitted so far
(`Except.error`), mirroring the jump to the `except` block of line 234. -/
def load_loop (errs : Nat → Bool) (cmap pmap : List (String × Nat)) (now : Nat) :
    List TransformedRecord → Nat → LoadState → Except (List LogEvent) LoadState
  | [], _, st => Except.ok st
  | r :: t, i, st =>
    if errs i then Except.error st.trace
    else load_loop errs cmap pmap now t (i + 1) (load_record cmap pmap now st r)

/-- Result of `load_to_database`: the boolean the function returns, the store
after commit or rollback, the two counters, and the log lines. -/
structure LoadResult where
  success : Bool
  db : DB
  productos_procesados : Nat
  productos_actualizados : Nat
  trace : List LogEvent
  deriving DecidableEq

/-- `load_to_database` (lines 146-237): build the two name maps, run the
per-record loop inside one transaction, then either commit once and log the
totals, or (on any error) roll the whole transaction back — the store keeps
its entry state `db` — log the error and return failure. -/
def load_to_database (errs : Nat → Bool) (now : Nat)
    (df : List TransformedRecord) (db : DB) : LoadResult :=
  let cmap := buildNameMap db.categorias
  let pmap := buildNameMap db.proveedores
  match load_loop errs cmap pmap now df 0 ⟨db, 0, 0, []⟩ with
  | Except.error tr =>
    { success := false, db := db, productos_procesados := 0, productos_actualizados := 0,
      trace := tr ++ [LogEvent.loadErrorLog, LogEvent.rollback] }
  | Except.ok st =>
    { success := true, db := st.db,
      productos_procesados := st.productos_procesados,
      productos_actualizados := st.productos_actualizados,
      trace := st.trace
        ++ [LogEvent.commit, LogEvent.loadOk st.productos_procesados st.productos_actualizados] }

/-- The transform-then-load core of `run_etl_pipeline` (lines 272-331): a
transform failure (`None`) short-circuits to a failed pipeline before any load
touches the store; otherwise the outcome is the load's outcome. -/
def run_etl_pipeline (errs : Nat → Bool) (now : Nat)
    (cols : List String) (rows : List InventoryRecord) (db : DB) : Bool × DB :=
  match (transform_product_data cols rows).1 with
  | none => (false, db)
  | some df =>
    let res := load_to_database errs now df db
    (res.success, res.db)

/-- One row returned by `generate_stock_report`. -/
structure ReportRow where
  sku : String
  nombre : String
  stock_actual : Nat
  stock_minimo : Nat
  ubicacion : String
  estado : String
  deriving DecidableEq

/-- The `CASE` expression of the report query (lines 251-255): only two tiers
below the `WHERE` filter, plus the syntactically present `NORMAL` arm. -/
def estado_reporte (stock_actual stock_minimo : Nat) : String :=
  if stock_actual = 0 then "SIN_STOCK"
  else if stock_actual ≤ stock_minimo then "CRÍTICO"
  else "NORMAL"

/-- Bytewise lexicographic text comparison (SQL text ordering under the C
collation), on the code points of the two names. -/
def charListLe : List Char → List Char → Bool
  | [], _ => true
  | _ :: _, [] => false
  | c :: cs, d :: ds =>
    if c.toNat < d.toNat then true
    else if d.toNat < c.toNat then false
    else charListLe cs ds

/-- `ORDER BY i.stock_actual ASC, p.nombre` as a relation on report rows. -/
def reportLe (a b : ReportRow) : Prop :=
  a.stock_actual < b.stock_actual
    ∨ (a.stock_actual = b.stock_actual ∧ charListLe a.nombre.data b.nombre.data = true)

instance : DecidableRel reportLe := fun a b =>
  inferInstanceAs (Decidable (a.stock_actual < b.stock_actual
    ∨ (a.stock_actual = b.stock_actual ∧ charListLe a.nombre.data b.nombre.data = true)))

/-- The rows produced by the report query before ordering: the
`JOIN ... WHERE i.stock_actual <= i.stock_minimo AND p.activo = true` of
lines 256-258, with the selected columns and `CASE` status of lines 250-255. -/
def qualifying (db : DB) : List ReportRow :=
  ((db.productos.filterMap fun ps =>
      (alistFind ps.1 db.inventario).map fun i => (ps.1, ps.2, i)).filter
    fun t => decide (t.2.2.stock_actual ≤ t.2.2.stock_minimo) && t.2.1.activo).map
    fun t =>
      { sku := t.1
        nombre := t.2.1.nombre
        stock_actual := t.2.2.stock_actual
        stock_minimo := t.2.2.stock_minimo
        ubicacion := t.2.2.ubicacion
        estado := estado_reporte t.2.2.stock_actual t.2.2.stock_minimo }

/-- `generate_stock_report` (lines 239-266): the qualifying rows in the order
demanded by the `ORDER BY` clause. -/
def generate_stock_report (db : DB) : List ReportRow :=
  (qualifying db).insertionSort reportLe

/-- The store effect of one pass of the load loop body, i.e. the `db` field of
`load_record`, which depends only on the `db` field of the incoming state. -/
def load_db_step (cmap pmap : List (String × Nat)) (now : Nat)
    (db : DB) (r : TransformedRecord) : DB :=
  let c := resolve_id cmap r.base.categoria
  let p := resolve_id pmap r.base.proveedor
  { db with
    productos := (upsert_producto r c.1 p.1 now db.productos).1
    inventario := upsert_inventario r now db.inventario }

/-- The stored product row at `r`'s SKU carries exactly `r`'s name, prices and
the current timestamp (the upsert's overwritten columns). -/
def agreesP (now : Nat) (db : DB) (r : TransformedRecord) : Prop :=
  ∃ p, alistFind r.base.sku db.productos = some p
    ∧ p.nombre = r.base.nombre
    ∧ p.precio_compra = r.base.precio_compra
    ∧ p.precio_venta = r.base.precio_venta
    ∧ p.updated_at = now

/-- The stored inventory row at `r`'s SKU carries exactly `r`'s stocks,
location and the current timestamp (the upsert's overwritten columns). -/
def agreesI (now : Nat) (db : DB) (r : TransformedRecord) : Prop :=
  ∃ i, alistFind r.base.sku db.inventario = some i
    ∧ i.stock_actual = r.base.stock_actual
    ∧ i.stock_minimo = r.base.stock_minimo
    ∧ i.ubicacion = r.base.ubicacion
    ∧ i.updated_at = now

/-- Log lines the load loop may emit between records: only the two
name-resolution warnings. -/
def isWarning : LogEvent → Bool
  | LogEvent.catWarning _ => true
  | LogEvent.provWarning _ => true
  | _ => false

/-- A sample raw row (first row of the fixture of lines 54-72, with integral
prices so that witnesses evaluate without rational arithmetic). -/
def rA : InventoryRecord :=
  { sku := "AP001", nombre := "Filtro Aceite", numero_parte := some "FT-123",
    categoria := "Filtros", proveedor := "AutoParts Supply",
    precio_compra := 8, precio_venta := 12,
    stock_actual := 25, stock_minimo := 10, stock_maximo := none,
    ubicacion := "A1-02" }

/-- A transformed sample row for exercising the load phase. -/
def tA : TransformedRecord :=
  { base := rA, margen_ganancia := Margen.val 50, nivel_stock := "NORMAL" }

/-- A second transformed row with a distinct SKU. -/
def tB : TransformedRecord :=
  { base :=
    { sku := "AP002", nombre := "Pastillas Freno", numero_parte := none,
      categoria := "Frenos", proveedor := "Brake Systems MX",
      precio_compra := 45, precio_venta := 65,
      stock_actual := 12, stock_minimo := 5, stock_maximo := some 40,
      ubicacion := "B2-15" }
    margen_ganancia := Margen.val (400/9), nivel_stock := "NORMAL" }

/-- A store whose lookup tables know `tA`'s names under id 1. -/
def db0 : DB :=
  { categorias := [(1, "Filtros")], proveedores := [(1, "AutoParts Supply")],
    productos := [], inventario := [] }

/-- A pre-existing product row under SKU "AP001" whose insert-only columns
differ from `tA`'s. -/
def p0 : Producto :=
  { nombre := "Nombre Viejo", numero_parte := "OLD-1", categoria_id := 7,
    proveedor_id := 9, precio_compra := 1, precio_venta := 2,
    garantia_meses := 24, activo := true, updated_at := 0 }

/-- A pre-existing inventory row under SKU "AP001" with a stock_maximo that an
update must not touch. -/
def i0 : InventarioRow :=
  { stock_actual := 3, stock_minimo := 2, stock_maximo := 99,
    ubicacion := "Z9-99", updated_at := 0 }

/-- A store for exercising the report: stocks 3, 3 and 0 with a name tie at
stock 3, plus one over-stocked and one inactive product that must not appear. -/
def dbR : DB :=
  { categorias := [], proveedores := [],
    productos :=
      [("S1", { p0 with nombre := "B", activo := true }),
       ("S2", { p0 with nombre := "A", activo := true }),
       ("S3", { p0 with nombre := "C", activo := true }),
       ("S4", { p0 with nombre := "D", activo := true }),
       ("S5", { p0 with nombre := "E", activo := false })],
    inventario :=
      [("S1", { i0 with stock_actual := 3, stock_minimo := 5, ubicacion := "L1" }),
       ("S2", { i0 with stock_actual := 3, stock_minimo := 5, ubicacion := "L2" }),
       ("S3", { i0 with stock_actual := 0, stock_minimo := 2, ubicacion := "L3" }),
       ("S4", { i0 with stock_actual := 9, stock_minimo := 2, ubicacion := "L4" }),
       ("S5", { i0 with stock_actual := 1, stock_minimo := 5, ubicacion := "L5" })] }

/-- The three rows the report over `dbR` must return, in order. -/
def repS3 : ReportRow :=
  { sku := "S3", nombre := "C", stock_actual := 0, stock_minimo := 2,
    ubicacion := "L3", estado := "SIN_STOCK" }

/-- Second expected report row over `dbR`. -/
def repS2 : ReportRow :=
  { sku := "S2", nombre := "A", stock_actual := 3, stock_minimo := 5,
    ubicacion := "L2", estado := "CRÍTICO" }

/-- Third expected report row over `dbR`. -/
def repS1 : ReportRow :=
  { sku := "S1", nombre := "B", stock_actual := 3, stock_minimo := 5,
    ubicacion := "L1", estado := "CRÍTICO" }

/-! ## Transform-phase lemmas -/

theorem transform_fst (cols : List String) (rows : List InventoryRecord) :
    (transform_product_data cols rows).1 =
      if "sku" ∈ cols ∧ (missing_required cols).isEmpty = true
      then some ((deduped rows).map derive)
      else none := by
  unfold transform_product_data
  by_cases h1 : "sku" ∈ cols <;>
    by_cases h2 : (missing_required cols).isEmpty = true
  · rw [if_pos h1, if_pos h2, if_pos ⟨h1, h2⟩]
  · rw [if_pos h1, if_neg h2, if_neg (fun h => h2 h.2)]
  · rw [if_neg h1, if_neg (fun h => h1 h.1)]
  · rw [if_neg h1, if_neg (fun h => h1 h.1)]

theorem missing_isEmpty_iff (cols : List String) :
    (missing_required cols).isEmpty = true ↔ ∀ c ∈ required_columns, c ∈ cols := by
  unfold missing_required
  rw [List.isEmpty_iff, List.filter_eq_nil_iff]
  simp

theorem transform_out {cols : List String} {rows : List InventoryRecord}
    {out : List TransformedRecord}
    (h : (transform_product_data cols rows).1 = some out) :
    out = (deduped rows).map derive := by
  rw [transform_fst] at h
  split at h
  · exact (Option.some_inj.mp h).symm
  · exact absurd h (by simp)

theorem transform_snd_nosku (cols : List String) (rows : List InventoryRecord)
    (h1 : "sku" ∉ cols) :
    (transform_product_data cols rows).2 =
      [LogEvent.transformErrorLog (TransformError.keyError "sku")] := by
  unfold transform_product_data
  rw [if_neg h1]

theorem transform_snd_missing (cols : List String) (rows : List InventoryRecord)
    (h1 : "sku" ∈ cols) (h2 : ¬ (missing_required cols).isEmpty = true) :
    (transform_product_data cols rows).2 =
      dupLog rows ++ [LogEvent.transformErrorLog
        (TransformError.missingColumns (missing_required cols))] := by
  unfold transform_product_data
  rw [if_pos h1, if_neg h2]

theorem transform_snd_ok (cols : List String) (rows : List InventoryRecord)
    (h1 : "sku" ∈ cols) (h2 : (missing_required cols).isEmpty = true) :
    (transform_product_data cols rows).2 =
      dupLog rows ++ priceLog (deduped rows) ++ [LogEvent.transformOk] := by
  unfold transform_product_data
  rw [if_pos h1, if_pos h2]

theorem dupWarning_mem (cols : List String) (rows : List InventoryRecord)
    (h1 : "sku" ∈ cols) (hd : ¬ (rows.map fun r => r.sku).Nodup) :
    LogEvent.dupWarning ∈ (transform_product_data cols rows).2 := by
  have hm : LogEvent.dupWarning ∈ dupLog rows := by
    unfold dupLog
    rw [if_neg hd]
    exact List.mem_singleton.mpr rfl
  by_cases h2 : (missing_required cols).isEmpty = true
  · rw [transform_snd_ok cols rows h1 h2]
    exact List.mem_append.mpr (Or.inl (List.mem_append.mpr (Or.inl hm)))
  · rw [transform_snd_missing cols rows h1 h2]
    exact List.mem_append.mpr (Or.inl hm)

/-! ## Deduplication lemmas -/

theorem mem_dedupBySku_not_seen {r : InventoryRecord} :
    ∀ (rows : List InventoryRecord) (seen : List String),
      r ∈ dedupBySku seen rows → r.sku ∉ seen
  | [], seen => by intro h; simp [dedupBySku] at h
  | a :: t, seen => by
    intro h
    unfold dedupBySku at h
    by_cases hs : a.sku ∈ seen
    · rw [if_pos hs] at h
      exact mem_dedupBySku_not_seen t seen h
    · rw [if_neg hs] at h
      rcases List.mem_cons.mp h with rfl | h'
      · exact hs
      · have := mem_dedupBySku_not_seen t (a.sku :: seen) h'
        exact fun hmem => this (List.mem_cons_of_mem _ hmem)

theorem dedupBySku_sku_nodup :
    ∀ (rows : List InventoryRecord) (seen : List String),
      ((dedupBySku seen rows).map (fun r => r.sku)).Nodup
  | [], seen => by simp [dedupBySku]
  | a :: t, seen => by
    unfold dedupBySku
    by_cases hs : a.sku ∈ seen
    · rw [if_pos hs]
      exact dedupBySku_sku_nodup t seen
    · rw [if_neg hs]
      simp only [List.map_cons, List.nodup_cons]
      refine ⟨?_, dedupBySku_sku_nodup t (a.sku :: seen)⟩
      intro hmem
      rcases List.mem_map.mp hmem with ⟨s, hsmem, hsku⟩
      exact mem_dedupBySku_not_seen t (a.sku :: seen) hsmem
        (by rw [hsku]; exact List.mem_cons_self _ _)

theorem dedupBySku_sublist :
    ∀ (rows : List InventoryRecord) (seen : List String),
      List.Sublist (dedupBySku seen rows) rows
  | [], _ => by simp [dedupBySku]
  | a :: t, seen => by
    unfold dedupBySku
    by_cases hs : a.sku ∈ seen
    · rw [if_pos hs]
      exact (dedupBySku_sublist t seen).cons a
    · rw [if_neg hs]
      exact (dedupBySku_sublist t (a.sku :: seen)).cons₂ a

theorem dedupBySku_covers :
    ∀ (rows : List InventoryRecord) (seen : List String) (r : InventoryRecord),
      r ∈ rows → r.sku ∉ seen → ∃ s ∈ dedupBySku seen rows, s.sku = r.sku
  | [], _, r => by intro h _; exact absurd h (List.not_mem_nil r)
  | a :: t, seen, r => by
    intro h hn
    unfold dedupBySku
    by_cases hs : a.sku ∈ seen
    · rw [if_pos hs]
      rcases List.mem_cons.mp h with rfl | h'
      · exact absurd hs hn
      · exact dedupBySku_covers t seen r h' hn
    · rw [if_neg hs]
      by_cases he : r.sku = a.sku
      · exact ⟨a, List.mem_cons_self _ _, he.symm⟩
      · rcases List.mem_cons.mp h with rfl | h'
        · exact absurd rfl he
        · obtain ⟨s, hs1, hs2⟩ := dedupBySku_covers t (a.sku :: seen) r h' (by
            intro hmem
            rcases List.mem_cons.mp hmem with h1 | h1
            · exact he h1
            · exact hn h1)
          exact ⟨s, List.mem_cons_of_mem _ hs1, hs2⟩

theorem dedupBySku_first :
    ∀ (rows : List InventoryRecord) (seen : List String) (s : InventoryRecord),
      s ∈ dedupBySku seen rows → rows.find? (fun r => r.sku == s.sku) = some s
  | [], _, s => by intro h; simp [dedupBySku] at h
  | a :: t, seen, s => by
    intro h
    unfold dedupBySku at h
    by_cases hs : a.sku ∈ seen
    · rw [if_pos hs] at h
      have hns := mem_dedupBySku_not_seen t seen h
      have hne : (a.sku == s.sku) = false := by
        refine beq_eq_false_iff_ne.mpr ?_
        intro he
        exact hns (he ▸ hs)
      rw [List.find?_cons, hne]
      exact dedupBySku_first t seen s h
    · rw [if_neg hs] at h
      rcases List.mem_cons.mp h with rfl | h'
      · rw [List.find?_cons, beq_self_eq_true]
      · have hns := mem_dedupBySku_not_seen t (a.sku :: seen) h'
        have hne : (a.sku == s.sku) = false := by
          refine beq_eq_false_iff_ne.mpr ?_
          intro he
          exact hns (by rw [← he]; exact List.mem_cons_self _ _)
        rw [List.find?_cons, hne]
        exact dedupBySku_first t (a.sku :: seen) s h'

theorem dedupBySku_eq_self :
    ∀ (rows : List InventoryRecord) (seen : List String),
      (rows.map (fun r => r.sku)).Nodup → (∀ r ∈ rows, r.sku ∉ seen) →
      dedupBySku seen rows = rows
  | [], seen => by intro _ _; rfl
  | a :: t, seen => by
    intro hnd hdisj
    have hnd' : a.sku ∉ t.map (fun r => r.sku) ∧ (t.map (fun r => r.sku)).Nodup := by
      rw [List.map_cons, List.nodup_cons] at hnd
      exact hnd
    unfold dedupBySku
    rw [if_neg (hdisj a (List.mem_cons_self _ _))]
    congr 1
    apply dedupBySku_eq_self t (a.sku :: seen) hnd'.2
    intro r hr hmem
    rcases List.mem_cons.mp hmem with h1 | h1
    · exact hnd'.1 (h1 ▸ List.mem_map_of_mem _ hr)
    · exact hdisj r (List.mem_cons_of_mem _ hr) h1

/-! ## Claim theorems: transform phase -/

/-- Claim C1: the derived stock level is a total function of
(current stock, minimum stock) with exactly the four tiers
SIN_STOCK / CRÍTICO / BAJO / NORMAL, inclusive on the lower bound
(current = minimum gives CRÍTICO, current = 2·minimum gives BAJO), and every
transformed record carries the category computed by that function from its own
stocks. -/
theorem c1_stock_category (a m : Nat) :
    (a = 0 → categorizar_stock a m = "SIN_STOCK")
  ∧ (0 < a → a ≤ m → categorizar_stock a m = "CRÍTICO")
  ∧ (m < a → a ≤ 2 * m → categorizar_stock a m = "BAJO")
  ∧ (2 * m < a → categorizar_stock a m = "NORMAL")
  ∧ (categorizar_stock a m = "SIN_STOCK" ∨ categorizar_stock a m = "CRÍTICO"
      ∨ categorizar_stock a m = "BAJO" ∨ categorizar_stock a m = "NORMAL")
  ∧ (∀ cols rows out, (transform_product_data cols rows).1 = some out →
      ∀ t ∈ out, t.nivel_stock = categorizar_stock t.base.stock_actual t.base.stock_minimo) := by
  refine ⟨?_, ?_, ?_, ?_, ?_, ?_⟩
  · intro h
    unfold categorizar_stock
    rw [if_pos h]
  · intro h1 h2
    unfold categorizar_stock
    rw [if_neg (by omega), if_pos h2]
  · intro h1 h2
    unfold categorizar_stock
    rw [if_neg (by omega), if_neg (by omega), if_pos (by omega)]
  · intro h
    unfold categorizar_stock
    rw [if_neg (by omega), if_neg (by omega), if_neg (by omega)]
  · unfold categorizar_stock
    split_ifs <;> simp
  · intro cols rows out h t ht
    rw [transform_out h] at ht
    rcases List.mem_map.mp ht with ⟨r, _, rfl⟩
    rfl

/-- Claim C1 witness: the four tiers at concrete boundary inputs. -/
theorem c1_witness :
    categorizar_stock 0 7 = "SIN_STOCK" ∧ categorizar_stock 7 7 = "CRÍTICO"
  ∧ categorizar_stock 14 7 = "BAJO" ∧ categorizar_stock 15 7 = "NORMAL" :=
  ⟨(c1_stock_category 0 7).1 rfl,
   (c1_stock_category 7 7).2.1 (by decide) (by decide),
   (c1_stock_category 14 7).2.2.1 (by decide) (by decide),
   (c1_stock_category 15 7).2.2.2.1 (by decide)⟩

/-- Claim C4: for nonzero purchase price the profit margin is
round((sale - purchase)/purchase·100, 2) — `.round(2)` being numpy's
2-decimal half-to-even rounding — and for purchase price 0 the margin is never
a finite 2-decimal number (the float division leaves the IEEE markers
inf, negative inf or NaN), and every transformed record carries the margin computed by
this function from its own prices. -/
theorem c4_margin (compra venta : ℚ) :
    (compra ≠ 0 → margen_ganancia compra venta
        = Margen.val (round2 ((venta - compra) / compra * 100)))
  ∧ (compra = 0 → ∀ q : ℚ, margen_ganancia compra venta ≠ Margen.val q)
  ∧ (∀ cols rows out, (transform_product_data cols rows).1 = some out →
      ∀ t ∈ out, t.margen_ganancia
        = margen_ganancia t.base.precio_compra t.base.precio_venta) := by
  refine ⟨?_, ?_, ?_⟩
  · intro h
    unfold margen_ganancia
    rw [if_neg h]
  · intro h q
    unfold margen_ganancia
    rw [if_pos h]
    split_ifs <;> simp
  · intro cols rows out h t ht
    rw [transform_out h] at ht
    rcases List.mem_map.mp ht with ⟨r, _, rfl⟩
    rfl

/-- Claim C4 witness: margin 50% for purchase 8 / sale 12, and no finite
margin for purchase price 0. -/
theorem c4_witness :
    margen_ganancia 8 12 = Margen.val (round2 ((12 - 8) / 8 * 100))
  ∧ round2 ((12 - 8) / 8 * 100) = 50
  ∧ margen_ganancia 0 12 ≠ Margen.val 50 :=
  ⟨(c4_margin 8 12).1 (by norm_num),
   by unfold round2 roundHalfEven; norm_num,
   (c4_margin 0 12).2.1 rfl 50⟩

/-- Claim C6 counterexample: the dropped-duplicate count is not logged.  Two
inputs that drop 1 and 2 duplicates respectively produce identical logs (the
duplicate warning of line 107 is a constant message), so no log output of the
transform reports the number of dropped duplicates. -/
theorem c6_counterexample :
    (transform_product_data required_columns [rA, rA]).2 =
      (transform_product_data required_columns [rA, rA, rA]).2
  ∧ [rA, rA].length - (dedupBySku [] [rA, rA]).length = 1
  ∧ [rA, rA, rA].length - (dedupBySku [] [rA, rA, rA]).length = 2 := by
  refine ⟨?_, by decide, by decide⟩
  decide

/-- Claim C6 (amended): the deduplicated batch has pairwise distinct SKUs, is
a sublist of the input keeping, for each SKU, exactly the first occurrence;
deduplication is idempotent; the transform's output rows have unique SKUs; and
when duplicates exist (and the sku column is present) a constant warning is
logged — without the dropped count. -/
theorem c6_dedup (cols : List String) (rows : List InventoryRecord) :
    ((dedupBySku [] rows).map (fun r => r.sku)).Nodup
  ∧ List.Sublist (dedupBySku [] rows) rows
  ∧ (∀ r ∈ rows, ∃ s ∈ dedupBySku [] rows, s.sku = r.sku)
  ∧ (∀ s ∈ dedupBySku [] rows, rows.find? (fun r => r.sku == s.sku) = some s)
  ∧ dedupBySku [] (dedupBySku [] rows) = dedupBySku [] rows
  ∧ (∀ out, (transform_product_data cols rows).1 = some out →
      (out.map fun t => t.base.sku).Nodup)
  ∧ ("sku" ∈ cols → ¬ (rows.map fun r => r.sku).Nodup →
      LogEvent.dupWarning ∈ (transform_product_data cols rows).2) := by
  refine ⟨dedupBySku_sku_nodup rows [], dedupBySku_sublist rows [], ?_, ?_, ?_, ?_, ?_⟩
  · intro r hr
    exact dedupBySku_covers rows [] r hr (List.not_mem_nil _)
  · intro s hs
    exact dedupBySku_first rows [] s hs
  · exact dedupBySku_eq_self _ [] (dedupBySku_sku_nodup rows []) (fun r _ => List.not_mem_nil _)
  · intro out h
    rw [transform_out h, List.map_map]
    show ((deduped rows).map fun r => r.sku).Nodup
    unfold deduped
    split
    · assumption
    · exact dedupBySku_sku_nodup rows []
  · exact dupWarning_mem cols rows

/-- Claim C6 witness: on the duplicated two-row batch the warning is in the
log and the deduplicated batch has unique SKUs. -/
theorem c6_witness :
    LogEvent.dupWarning ∈ (transform_product_data required_columns [rA, rA]).2
  ∧ ((dedupBySku [] [rA, rA]).map (fun r => r.sku)).Nodup :=
  ⟨(c6_dedup required_columns [rA, rA]).2.2.2.2.2.2 (by decide) (by decide),
   (c6_dedup required_columns [rA, rA]).1⟩

/-- Claim C7 counterexample: with every column absent (so sku among the
missing), the transform does abort, but through the pandas KeyError of the
duplicate-check line 106, whose message names only sku — no error naming all
the absent required fields is logged. -/
theorem c7_counterexample :
    (transform_product_data [] []).1 = none
  ∧ (transform_product_data [] []).2
      = [LogEvent.transformErrorLog (TransformError.keyError "sku")]
  ∧ LogEvent.transformErrorLog (TransformError.missingColumns required_columns)
      ∉ (transform_product_data [] []).2 := by
  refine ⟨by decide, by decide, by decide⟩

/-- Claim C7 (amended): when the sku column is present and some required field
is absent, the transform fails with the ValueError naming exactly the absent
required fields, and the pipeline aborts before any load with outcome failure;
when the sku column itself is absent the transform fails at the duplicate
check with an error naming only sku (still aborting before any load); when all
required fields are present, the missing-field error path is not taken. -/
theorem c7_missing_fields (errs : Nat → Bool) (now : Nat) (db : DB)
    (cols : List String) (rows : List InventoryRecord) :
    ("sku" ∈ cols → (∃ c ∈ required_columns, c ∉ cols) →
       (transform_product_data cols rows).1 = none
     ∧ LogEvent.transformErrorLog (TransformError.missingColumns (missing_required cols))
         ∈ (transform_product_data cols rows).2
     ∧ missing_required cols ≠ []
     ∧ (∀ c, c ∈ missing_required cols ↔ c ∈ required_columns ∧ c ∉ cols)
     ∧ run_etl_pipeline errs now cols rows db = (false, db))
  ∧ ("sku" ∉ cols →
       (transform_product_data cols rows).1 = none
     ∧ (transform_product_data cols rows).2
         = [LogEvent.transformErrorLog (TransformError.keyError "sku")]
     ∧ run_etl_pipeline errs now cols rows db = (false, db))
  ∧ ((∀ c ∈ required_columns, c ∈ cols) →
       ∃ out, (transform_product_data cols rows).1 = some out) := by
  refine ⟨?_, ?_, ?_⟩
  · intro h1 hex
    have h2 : ¬ (missing_required cols).isEmpty = true := by
      rw [missing_isEmpty_iff]
      intro hall
      obtain ⟨c, hc1, hc2⟩ := hex
      exact hc2 (hall c hc1)
    have hnone : (transform_product_data cols rows).1 = none := by
      rw [transform_fst, if_neg (fun h => h2 h.2)]
    refine ⟨hnone, ?_, ?_, ?_, ?_⟩
    · rw [transform_snd_missing cols rows h1 h2]
      exact List.mem_append.mpr (Or.inr (List.mem_singleton.mpr rfl))
    · intro hnil
      exact h2 (by rw [hnil]; rfl)
    · intro c
      unfold missing_required
      rw [List.mem_filter]
      simp
    · unfold run_etl_pipeline
      rw [hnone]
  · intro h1
    have hnone : (transform_product_data cols rows).1 = none := by
      rw [transform_fst, if_neg (fun h => h1 h.1)]
    refine ⟨hnone, transform_snd_nosku cols rows h1, ?_⟩
    unfold run_etl_pipeline
    rw [hnone]
  · intro hall
    have h2 : (missing_required cols).isEmpty = true := (missing_isEmpty_iff cols).mpr hall
    by_cases h1 : "sku" ∈ cols
    · exact ⟨_, by rw [transform_fst, if_pos ⟨h1, h2⟩]⟩
    · exact absurd (hall "sku" (by unfold required_columns; exact List.mem_cons_self _ _)) h1

/-- Claim C7 witness: batch with only the sku column → failure naming the five
other required fields and a failed pipeline; batch with all required columns →
the transform succeeds. -/
theorem c7_witness :
    (transform_product_data ["sku"] []).1 = none
  ∧ run_etl_pipeline (fun _ => false) 0 ["sku"] [] db0 = (false, db0)
  ∧ (∃ out, (transform_product_data required_columns []).1 = some out) :=
  ⟨((c7_missing_fields (fun _ => false) 0 db0 ["sku"] []).1 (by decide)
      ⟨"nombre", by decide, by decide⟩).1,
   ((c7_missing_fields (fun _ => false) 0 db0 ["sku"] []).1 (by decide)
      ⟨"nombre", by decide, by decide⟩).2.2.2.2,
   (c7_missing_fields (fun _ => false) 0 db0 required_columns []).2.2 (by decide)⟩

/-! ## Association-list lemmas -/

theorem alistFind_upsert_self {α : Type} (k : String) (upd : α → α) (ins : α) :
    ∀ tbl, alistFind k (alistUpsert k upd ins tbl) =
      some ((alistFind k tbl).elim ins upd)
  | [] => by simp [alistFind, alistUpsert]
  | (k', v) :: t => by
    unfold alistUpsert
    by_cases h : k = k'
    · rw [if_pos h]
      unfold alistFind
      rw [if_pos h, if_pos h]
      rfl
    · rw [if_neg h]
      unfold alistFind
      rw [if_neg h, if_neg h]
      exact alistFind_upsert_self k upd ins t

theorem alistFind_upsert_ne {α : Type} (k j : String) (upd : α → α) (ins : α) (h : j ≠ k) :
    ∀ tbl, alistFind j (alistUpsert k upd ins tbl) = alistFind j tbl
  | [] => by simp [alistFind, alistUpsert, h]
  | (k', v) :: t => by
    unfold alistUpsert
    by_cases hk : k = k'
    · rw [if_pos hk]
      unfold alistFind
      rw [if_neg (hk ▸ h), if_neg (hk ▸ h)]
    · rw [if_neg hk]
      unfold alistFind
      by_cases hj : j = k'
      · rw [if_pos hj, if_pos hj]
      · rw [if_neg hj, if_neg hj]
        exact alistFind_upsert_ne k j upd ins h t

theorem alistUpsert_id {α : Type} (k : String) (upd : α → α) (ins : α) :
    ∀ (tbl : List (String × α)) (v : α), alistFind k tbl = some v → upd v = v →
      alistUpsert k upd ins tbl = tbl
  | [], v => by
    intro h _
    simp [alistFind] at h
  | (k', w) :: t, v => by
    intro h hid
    unfold alistFind at h
    unfold alistUpsert
    by_cases hk : k = k'
    · rw [if_pos hk] at h ⊢
      obtain rfl : w = v := Option.some_inj.mp h
      rw [hid]
    · rw [if_neg hk] at h ⊢
      rw [alistUpsert_id k upd ins t v h hid]

/-! ## Name-resolution lemmas -/

theorem resolve_id_none {m : List (String × Nat)} {nombre : String}
    (h : alistFind nombre m = none) : resolve_id m nombre = (1, true) := by
  unfold resolve_id
  rw [h]
  rfl

theorem resolve_id_zero {m : List (String × Nat)} {nombre : String}
    (h : alistFind nombre m = some 0) : resolve_id m nombre = (1, true) := by
  unfold resolve_id
  rw [h]
  rfl

theorem resolve_id_pos {m : List (String × Nat)} {nombre : String} {n : Nat}
    (h : alistFind nombre m = some n) (hn : n ≠ 0) : resolve_id m nombre = (n, false) := by
  unfold resolve_id
  rw [h]
  simp [pyFalsyId, hn]

/-! ## Load-loop lemmas -/

theorem load_record_db (cmap pmap : List (String × Nat)) (now : Nat)
    (st : LoadState) (r : TransformedRecord) :
    (load_record cmap pmap now st r).db = load_db_step cmap pmap now st.db r := rfl

theorem load_record_counters (cmap pmap : List (String × Nat)) (now : Nat)
    (st : LoadState) (r : TransformedRecord) :
    (load_record cmap pmap now st r).productos_procesados = st.productos_procesados + 1
  ∧ (load_record cmap pmap now st r).productos_actualizados = st.productos_actualizados :=
  ⟨rfl, rfl⟩

theorem load_record_trace (cmap pmap : List (String × Nat)) (now : Nat)
    (st : LoadState) (r : TransformedRecord) :
    ∃ ex, (load_record cmap pmap now st r).trace = st.trace ++ ex
      ∧ ∀ e ∈ ex, isWarning e = true := by
  refine ⟨_, rfl, ?_⟩
  intro e he
  rcases List.mem_append.mp he with h | h
  · cases hc : (resolve_id cmap r.base.categoria).2 <;> simp [hc] at h
    subst h
    rfl
  · cases hc : (resolve_id pmap r.base.proveedor).2 <;> simp [hc] at h
    subst h
    rfl

theorem load_loop_ok (errs : Nat → Bool) (cmap pmap : List (String × Nat)) (now : Nat) :
    ∀ (df : List TransformedRecord) (i : Nat) (st : LoadState),
      (∀ j, j < df.length → errs (i + j) = false) →
      load_loop errs cmap pmap now df i st =
        Except.ok (df.foldl (load_record cmap pmap now) st)
  | [], i, st => by
    intro _
    rfl
  | r :: t, i, st => by
    intro h
    have h0 : errs i = false := h 0 (by simp)
    unfold load_loop
    rw [h0]
    show load_loop errs cmap pmap now t (i + 1) (load_record cmap pmap now st r) = _
    rw [List.foldl_cons]
    exact load_loop_ok errs cmap pmap now t (i + 1) _ (fun j hj => by
      rw [show i + 1 + j = i + (j + 1) by omega]
      exact h (j + 1) (by simpa using Nat.succ_lt_succ hj))

theorem load_loop_err (errs : Nat → Bool) (cmap pmap : List (String × Nat)) (now : Nat) :
    ∀ (df : List TransformedRecord) (i : Nat) (st : LoadState),
      (∃ j, j < df.length ∧ errs (i + j) = true) →
      ∃ tr, load_loop errs cmap pmap now df i st = Except.error tr
        ∧ ∃ ex, tr = st.trace ++ ex ∧ ∀ e ∈ ex, isWarning e = true
  | [], i, st => by
    intro h
    obtain ⟨j, hj, _⟩ := h
    simp at hj
  | r :: t, i, st => by
    intro h
    unfold load_loop
    cases he : errs i
    · obtain ⟨j, hj, hjt⟩ := h
      have hj0 : j ≠ 0 := by
        intro h0
        subst h0
        rw [show i + 0 = i from rfl, he] at hjt
        cases hjt
      obtain ⟨tr, h1, ex, h2, h3⟩ :=
        load_loop_err errs cmap pmap now t (i + 1) (load_record cmap pmap now st r)
          ⟨j - 1, by simp at hj; omega, by
            rw [show i + 1 + (j - 1) = i + j by omega]
            exact hjt⟩
      refine ⟨tr, h1, ?_⟩
      obtain ⟨ex0, hw0, hwW⟩ := load_record_trace cmap pmap now st r
      refine ⟨ex0 ++ ex, ?_, ?_⟩
      · rw [h2, hw0, List.append_assoc]
      · intro e hee
        rcases List.mem_append.mp hee with hh | hh
        · exact hwW e hh
        · exact h3 e hh
    · exact ⟨st.trace, rfl, [], by simp, by simp⟩

theorem foldl_counters (cmap pmap : List (String × Nat)) (now : Nat) :
    ∀ (df : List TransformedRecord) (st : LoadState),
      (df.foldl (load_record cmap pmap now) st).productos_procesados
          = st.productos_procesados + df.length
    ∧ (df.foldl (load_record cmap pmap now) st).productos_actualizados
          = st.productos_actualizados
  | [], st => ⟨by simp, rfl⟩
  | r :: t, st => by
    constructor
    · rw [List.foldl_cons, (foldl_counters cmap pmap now t _).1,
        (load_record_counters cmap pmap now st r).1]
      simp [List.length_cons]
      omega
    · rw [List.foldl_cons, (foldl_counters cmap pmap now t _).2,
        (load_record_counters cmap pmap now st r).2]

theorem foldl_trace_warnings (cmap pmap : List (String × Nat)) (now : Nat) :
    ∀ (df : List TransformedRecord) (st : LoadState),
      ∃ ex, (df.foldl (load_record cmap pmap now) st).trace = st.trace ++ ex
        ∧ ∀ e ∈ ex, isWarning e = true
  | [], st => ⟨[], by simp, by simp⟩
  | r :: t, st => by
    obtain ⟨ex1, h1, hw1⟩ := load_record_trace cmap pmap now st r
    obtain ⟨ex2, h2, hw2⟩ := foldl_trace_warnings cmap pmap now t (load_record cmap pmap now st r)
    refine ⟨ex1 ++ ex2, ?_, ?_⟩
    · rw [List.foldl_cons, h2, h1, List.append_assoc]
    · intro e he
      rcases List.mem_append.mp he with h | h
      · exact hw1 e h
      · exact hw2 e h

theorem foldl_db (cmap pmap : List (String × Nat)) (now : Nat) :
    ∀ (df : List TransformedRecord) (st : LoadState),
      (df.foldl (load_record cmap pmap now) st).db
        = df.foldl (load_db_step cmap pmap now) st.db
  | [], st => rfl
  | r :: t, st => by
    rw [List.foldl_cons, List.foldl_cons, foldl_db cmap pmap now t, load_record_db]

theorem foldl_db_step_tables (cmap pmap : List (String × Nat)) (now : Nat) :
    ∀ (df : List TransformedRecord) (db : DB),
      (df.foldl (load_db_step cmap pmap now) db).categorias = db.categorias
    ∧ (df.foldl (load_db_step cmap pmap now) db).proveedores = db.proveedores
  | [], db => ⟨rfl, rfl⟩
  | r :: t, db => by
    rw [List.foldl_cons]
    exact foldl_db_step_tables cmap pmap now t _

/-- On any in-range store error the load returns failure with the entry store
state (rollback) and a trace of warnings followed by the error log and the
rollback — no commit. -/
theorem load_to_database_fail (errs : Nat → Bool) (now : Nat)
    (df : List TransformedRecord) (db : DB)
    (h : ∃ j, j < df.length ∧ errs j = true) :
    ∃ ex, (∀ e ∈ ex, isWarning e = true)
      ∧ load_to_database errs now df db =
        { success := false, db := db, productos_procesados := 0,
          productos_actualizados := 0,
          trace := ex ++ [LogEvent.loadErrorLog, LogEvent.rollback] } := by
  obtain ⟨tr, hloop, ex, hex, hw⟩ :=
    load_loop_err errs (buildNameMap db.categorias) (buildNameMap db.proveedores) now df 0
      ⟨db, 0, 0, []⟩ (by
        obtain ⟨j, hj, hjt⟩ := h
        exact ⟨j, hj, by simpa using hjt⟩)
  refine ⟨ex, hw, ?_⟩
  simp only [load_to_database]
  rw [hloop, show tr = ex by simpa using hex]

/-- With no store error the load succeeds: it is the fold of the per-record
step and its trace is that fold's warnings followed by exactly one commit and
the totals line. -/
theorem load_to_database_ok (errs : Nat → Bool) (now : Nat)
    (df : List TransformedRecord) (db : DB)
    (h : ∀ j, j < df.length → errs j = false) :
    load_to_database errs now df db =
      { success := true
        db := (df.foldl (load_record (buildNameMap db.categorias)
                (buildNameMap db.proveedores) now) ⟨db, 0, 0, []⟩).db
        productos_procesados := (df.foldl (load_record (buildNameMap db.categorias)
                (buildNameMap db.proveedores) now) ⟨db, 0, 0, []⟩).productos_procesados
        productos_actualizados := (df.foldl (load_record (buildNameMap db.categorias)
                (buildNameMap db.proveedores) now) ⟨db, 0, 0, []⟩).productos_actualizados
        trace := (df.foldl (load_record (buildNameMap db.categorias)
                (buildNameMap db.proveedores) now) ⟨db, 0, 0, []⟩).trace
          ++ [LogEvent.commit,
              LogEvent.loadOk
                (df.foldl (load_record (buildNameMap db.categorias)
                  (buildNameMap db.proveedores) now) ⟨db, 0, 0, []⟩).productos_procesados
                (df.foldl (load_record (buildNameMap db.categorias)
                  (buildNameMap db.proveedores) now) ⟨db, 0, 0, []⟩).productos_actualizados] } := by
  simp only [load_to_database]
  rw [load_loop_ok errs (buildNameMap db.categorias) (buildNameMap db.proveedores) now df 0
    ⟨db, 0, 0, []⟩ (fun j hj => by simpa using h j hj)]

/-- Any single-record load with no store error logs the category-not-resolved
warning when the resolver fired it. -/
theorem catWarning_single (now : Nat) (db : DB) (r : TransformedRecord)
    (h : (resolve_id (buildNameMap db.categorias) r.base.categoria).2 = true) :
    LogEvent.catWarning r.base.categoria
      ∈ (load_to_database (fun _ => false) now [r] db).trace := by
  rw [load_to_database_ok (fun _ => false) now [r] db (fun j _ => rfl)]
  simp only [List.foldl_cons, List.foldl_nil]
  refine List.mem_append.mpr (Or.inl ?_)
  show LogEvent.catWarning r.base.categoria
    ∈ [] ++ ((if (resolve_id (buildNameMap db.categorias) r.base.categoria).2
                then [LogEvent.catWarning r.base.categoria] else [])
        ++ (if (resolve_id (buildNameMap db.proveedores) r.base.proveedor).2
                then [LogEvent.provWarning r.base.proveedor] else []))
  simp [h]

/-! ## Claim theorems: load phase -/

/-- Claim C2: if any per-record store operation fails (at any position of any
batch), the load reports failure, the store keeps its entry state (full
rollback), no commit appears in the log but a rollback does, and the pipeline
outcome is failure; with no store error the load succeeds and commits exactly
once, at the end, just before the totals line. -/
theorem c2_batch_abort (errs : Nat → Bool) (now : Nat)
    (df : List TransformedRecord) (db : DB)
    (cols : List String) (rows : List InventoryRecord) :
    ((∃ j, j < df.length ∧ errs j = true) →
       (load_to_database errs now df db).success = false
     ∧ (load_to_database errs now df db).db = db
     ∧ LogEvent.commit ∉ (load_to_database errs now df db).trace
     ∧ LogEvent.rollback ∈ (load_to_database errs now df db).trace
     ∧ ((transform_product_data cols rows).1 = some df →
         run_etl_pipeline errs now cols rows db = (false, db)))
  ∧ ((∀ j, j < df.length → errs j = false) →
       (load_to_database errs now df db).success = true
     ∧ ∃ tr, (load_to_database errs now df db).trace
           = tr ++ [LogEvent.commit, LogEvent.loadOk
               (load_to_database errs now df db).productos_procesados
               (load_to_database errs now df db).productos_actualizados]
         ∧ LogEvent.commit ∉ tr) := by
  constructor
  · intro h
    obtain ⟨ex, hw, heq⟩ := load_to_database_fail errs now df db h
    refine ⟨by rw [heq], by rw [heq], ?_, ?_, ?_⟩
    · rw [heq]
      intro hmem
      rcases List.mem_append.mp hmem with hh | hh
      · have := hw _ hh
        simp [isWarning] at this
      · simp at hh
    · rw [heq]
      exact List.mem_append.mpr (Or.inr (by simp))
    · intro htr
      unfold run_etl_pipeline
      rw [htr]
      show ((load_to_database errs now df db).success,
            (load_to_database errs now df db).db) = (false, db)
      rw [heq]
  · intro h
    have heq := load_to_database_ok errs now df db h
    obtain ⟨ex, hex, hw⟩ := foldl_trace_warnings (buildNameMap db.categorias)
      (buildNameMap db.proveedores) now df ⟨db, 0, 0, []⟩
    refine ⟨by rw [heq], ?_⟩
    refine ⟨(df.foldl (load_record (buildNameMap db.categorias)
        (buildNameMap db.proveedores) now) ⟨db, 0, 0, []⟩).trace, by rw [heq], ?_⟩
    intro hmem
    rw [hex] at hmem
    have hc : LogEvent.commit ∈ ex := by simpa using hmem
    have := hw _ hc
    simp [isWarning] at this

/-- Claim C2 witness: a failing record rolls the one-record batch back and
reports failure; without store errors the same batch loads successfully. -/
theorem c2_witness :
    (load_to_database (fun _ => true) 0 [tA] db0).success = false
  ∧ (load_to_database (fun _ => true) 0 [tA] db0).db = db0
  ∧ (load_to_database (fun _ => false) 0 [tA] db0).success = true :=
  ⟨((c2_batch_abort (fun _ => true) 0 [tA] db0 [] []).1 ⟨0, by decide, rfl⟩).1,
   ((c2_batch_abort (fun _ => true) 0 [tA] db0 [] []).1 ⟨0, by decide, rfl⟩).2.1,
   ((c2_batch_abort (fun _ => false) 0 [tA] db0 [] []).2 (fun j _ => rfl)).1⟩

/-- Claim C3: on an existing SKU the product upsert overwrites exactly name,
both prices and the timestamp — category id, supplier id and part number keep
their stored values — and the inventory upsert overwrites stocks, location and
timestamp but keeps the stored maximum stock; maximum stock is set only at
insert time, defaulting to 4 × minimum stock when the record does not supply
it. -/
theorem c3_upsert_frame (r : TransformedRecord) (cid pid now : Nat)
    (tblP : List (String × Producto)) (tblI : List (String × InventarioRow)) :
    (∀ p, alistFind r.base.sku tblP = some p →
       alistFind r.base.sku (upsert_producto r cid pid now tblP).1 =
         some { p with
                nombre := r.base.nombre
                precio_compra := r.base.precio_compra
                precio_venta := r.base.precio_venta
                updated_at := now })
  ∧ (∀ i, alistFind r.base.sku tblI = some i →
       alistFind r.base.sku (upsert_inventario r now tblI) =
         some { i with
                stock_actual := r.base.stock_actual
                stock_minimo := r.base.stock_minimo
                ubicacion := r.base.ubicacion
                updated_at := now })
  ∧ (alistFind r.base.sku tblI = none →
       alistFind r.base.sku (upsert_inventario r now tblI) =
         some { stock_actual := r.base.stock_actual
                stock_minimo := r.base.stock_minimo
                stock_maximo := r.base.stock_maximo.getD (r.base.stock_minimo * 4)
                ubicacion := r.base.ubicacion
                updated_at := now }) := by
  refine ⟨?_, ?_, ?_⟩
  · intro p hp
    show alistFind r.base.sku (alistUpsert r.base.sku _ _ tblP) = _
    rw [alistFind_upsert_self, hp]
    rfl
  · intro i hi
    show alistFind r.base.sku (alistUpsert r.base.sku _ _ tblI) = _
    rw [alistFind_upsert_self, hi]
    rfl
  · intro hn
    show alistFind r.base.sku (alistUpsert r.base.sku _ _ tblI) = _
    rw [alistFind_upsert_self, hn]
    rfl

/-- Claim C3 witness: updating SKU AP001 over the pre-existing rows keeps
categoria_id 7, proveedor_id 9, numero_parte OLD-1 and stock_maximo 99, and a
fresh insert defaults stock_maximo to 40 = 4 × 10. -/
theorem c3_witness :
    alistFind tA.base.sku (upsert_producto tA 1 1 5 [("AP001", p0)]).1 =
      some { p0 with
             nombre := tA.base.nombre
             precio_compra := tA.base.precio_compra
             precio_venta := tA.base.precio_venta
             updated_at := 5 }
  ∧ alistFind tA.base.sku (upsert_inventario tA 5 [("AP001", i0)]) =
      some { i0 with
             stock_actual := tA.base.stock_actual
             stock_minimo := tA.base.stock_minimo
             ubicacion := tA.base.ubicacion
             updated_at := 5 }
  ∧ alistFind tA.base.sku (upsert_inventario tA 5 []) =
      some { stock_actual := tA.base.stock_actual
             stock_minimo := tA.base.stock_minimo
             stock_maximo := tA.base.stock_maximo.getD (tA.base.stock_minimo * 4)
             ubicacion := tA.base.ubicacion
             updated_at := 5 }
  ∧ tA.base.stock_maximo.getD (tA.base.stock_minimo * 4) = 40 :=
  ⟨(c3_upsert_frame tA 1 1 5 [("AP001", p0)] [("AP001", i0)]).1 p0 rfl,
   (c3_upsert_frame tA 1 1 5 [("AP001", p0)] [("AP001", i0)]).2.1 i0 rfl,
   (c3_upsert_frame tA 1 1 5 [("AP001", p0)] []).2.2 rfl,
   rfl⟩

/-- Claim C8: a category or supplier name with no entry in the name→id map is
resolved to the fixed default id 1 with the warning fired; name resolution has
no failure path, so a load whose only anomalies are unknown names still
succeeds, and the warning appears in the load's log. -/
theorem c8_unknown_name_default (m : List (String × Nat)) (nombre : String)
    (h : alistFind nombre m = none) :
    resolve_id m nombre = (1, true)
  ∧ (∀ (errs : Nat → Bool) (now : Nat) (df : List TransformedRecord) (db : DB),
       (∀ j, j < df.length → errs j = false) →
       (load_to_database errs now df db).success = true)
  ∧ (∀ (now : Nat) (db : DB) (r : TransformedRecord),
       r.base.categoria = nombre →
       alistFind nombre (buildNameMap db.categorias) = none →
       LogEvent.catWarning nombre ∈ (load_to_database (fun _ => false) now [r] db).trace) := by
  refine ⟨resolve_id_none h, ?_, ?_⟩
  · intro errs now df db hok
    rw [load_to_database_ok errs now df db hok]
  · intro now db r hr hnone
    have hres : (resolve_id (buildNameMap db.categorias) r.base.categoria).2 = true := by
      rw [hr, resolve_id_none hnone]
    have := catWarning_single now db r hres
    rw [hr] at this
    exact this

/-- Claim C8 witness: the unknown name Exotic resolves to (1, warning); the
load of a record with the unknown category Frenos over `db0` succeeds and logs
the warning. -/
theorem c8_witness :
    resolve_id [("Filtros", 3)] "Exotic" = (1, true)
  ∧ (load_to_database (fun _ => false) 0 [tB] db0).success = true
  ∧ LogEvent.catWarning "Frenos" ∈ (load_to_database (fun _ => false) 0 [tB] db0).trace :=
  ⟨(c8_unknown_name_default [("Filtros", 3)] "Exotic" (by decide)).1,
   (c8_unknown_name_default [("Filtros", 3)] "Exotic" (by decide)).2.1
     (fun _ => false) 0 [tB] db0 (fun j _ => rfl),
   (c8_unknown_name_default (buildNameMap db0.categorias) "Frenos" (by decide)).2.2
     0 db0 tB rfl (by decide)⟩

/-- Claim C10: the fallback condition tests the truthiness of the mapped id,
not the presence of the name, so a name stored with id 0 is nevertheless
resolved to the default id 1 with the not-found warning fired (and logged
during the load), while names with nonzero ids resolve to their stored id with
no warning. -/
theorem c10_zero_id_fallback (m : List (String × Nat)) (nombre : String) :
    (alistFind nombre m = some 0 → resolve_id m nombre = (1, true))
  ∧ (∀ n, alistFind nombre m = some n → n ≠ 0 → resolve_id m nombre = (n, false))
  ∧ (∀ (now : Nat) (db : DB) (r : TransformedRecord),
       r.base.categoria = nombre →
       alistFind nombre (buildNameMap db.categorias) = some 0 →
       LogEvent.catWarning nombre ∈ (load_to_database (fun _ => false) now [r] db).trace) := by
  refine ⟨?_, ?_, ?_⟩
  · intro h
    exact resolve_id_zero h
  · intro n h hn
    exact resolve_id_pos h hn
  · intro now db r hr hzero
    have hres : (resolve_id (buildNameMap db.categorias) r.base.categoria).2 = true := by
      rw [hr, resolve_id_zero hzero]
    have := catWarning_single now db r hres
    rw [hr] at this
    exact this

/-- Claim C10 witness: the name Filtros stored with id 0 resolves to the
default (1, warning) while Frenos stored with id 6 resolves to (6, no
warning). -/
theorem c10_witness :
    resolve_id [("Filtros", 0), ("Frenos", 6)] "Filtros" = (1, true)
  ∧ resolve_id [("Filtros", 0), ("Frenos", 6)] "Frenos" = (6, false) :=
  ⟨(c10_zero_id_fallback [("Filtros", 0), ("Frenos", 6)] "Filtros").1 (by decide),
   (c10_zero_id_fallback [("Filtros", 0), ("Frenos", 6)] "Frenos").2.1 6 (by decide) (by decide)⟩

/-! ## Idempotence machinery for the load -/

theorem upsert_producto_fst (r : TransformedRecord) (cid pid now : Nat)
    (tbl : List (String × Producto)) :
    (upsert_producto r cid pid now tbl).1 =
      alistUpsert r.base.sku
        (fun p => { p with
          nombre := r.base.nombre
          precio_compra := r.base.precio_compra
          precio_venta := r.base.precio_venta
          updated_at := now })
        { nombre := r.base.nombre
          numero_parte := r.base.numero_parte.getD ""
          categoria_id := cid
          proveedor_id := pid
          precio_compra := r.base.precio_compra
          precio_venta := r.base.precio_venta
          garantia_meses := 12
          activo := true
          updated_at := now } tbl := rfl

theorem upsert_inventario_eq (r : TransformedRecord) (now : Nat)
    (tbl : List (String × InventarioRow)) :
    upsert_inventario r now tbl =
      alistUpsert r.base.sku
        (fun i => { i with
          stock_actual := r.base.stock_actual
          stock_minimo := r.base.stock_minimo
          ubicacion := r.base.ubicacion
          updated_at := now })
        { stock_actual := r.base.stock_actual
          stock_minimo := r.base.stock_minimo
          stock_maximo := r.base.stock_maximo.getD (r.base.stock_minimo * 4)
          ubicacion := r.base.ubicacion
          updated_at := now } tbl := rfl

theorem load_db_step_productos (cmap pmap : List (String × Nat)) (now : Nat)
    (db : DB) (r : TransformedRecord) :
    (load_db_step cmap pmap now db r).productos =
      (upsert_producto r (resolve_id cmap r.base.categoria).1
        (resolve_id pmap r.base.proveedor).1 now db.productos).1 := rfl

theorem load_db_step_inventario (cmap pmap : List (String × Nat)) (now : Nat)
    (db : DB) (r : TransformedRecord) :
    (load_db_step cmap pmap now db r).inventario = upsert_inventario r now db.inventario := rfl

theorem load_db_step_agrees (cmap pmap : List (String × Nat)) (now : Nat)
    (db : DB) (r : TransformedRecord) :
    agreesP now (load_db_step cmap pmap now db r) r
  ∧ agreesI now (load_db_step cmap pmap now db r) r := by
  constructor
  · unfold agreesP
    rw [load_db_step_productos, upsert_producto_fst, alistFind_upsert_self]
    cases hfind : alistFind r.base.sku db.productos
    · exact ⟨_, rfl, rfl, rfl, rfl, rfl⟩
    · exact ⟨_, rfl, rfl, rfl, rfl, rfl⟩
  · unfold agreesI
    rw [load_db_step_inventario, upsert_inventario_eq, alistFind_upsert_self]
    cases hfind : alistFind r.base.sku db.inventario
    · exact ⟨_, rfl, rfl, rfl, rfl, rfl⟩
    · exact ⟨_, rfl, rfl, rfl, rfl, rfl⟩

theorem load_db_step_frame (cmap pmap : List (String × Nat)) (now : Nat)
    (db : DB) (r r' : TransformedRecord) (hne : r.base.sku ≠ r'.base.sku) :
    alistFind r.base.sku (load_db_step cmap pmap now db r').productos
      = alistFind r.base.sku db.productos
  ∧ alistFind r.base.sku (load_db_step cmap pmap now db r').inventario
      = alistFind r.base.sku db.inventario := by
  constructor
  · rw [load_db_step_productos, upsert_producto_fst, alistFind_upsert_ne _ _ _ _ hne]
  · rw [load_db_step_inventario, upsert_inventario_eq, alistFind_upsert_ne _ _ _ _ hne]

theorem agrees_step (cmap pmap : List (String × Nat)) (now : Nat)
    (db : DB) (r r' : TransformedRecord) (hne : r.base.sku ≠ r'.base.sku)
    (h : agreesP now db r ∧ agreesI now db r) :
    agreesP now (load_db_step cmap pmap now db r') r
  ∧ agreesI now (load_db_step cmap pmap now db r') r := by
  obtain ⟨⟨p, hp, h1, h2, h3, h4⟩, ⟨i, hi, g1, g2, g3, g4⟩⟩ := h
  constructor
  · exact ⟨p, by rw [(load_db_step_frame cmap pmap now db r r' hne).1]; exact hp,
      h1, h2, h3, h4⟩
  · exact ⟨i, by rw [(load_db_step_frame cmap pmap now db r r' hne).2]; exact hi,
      g1, g2, g3, g4⟩

theorem agrees_foldl_frame (cmap pmap : List (String × Nat)) (now : Nat) :
    ∀ (t : List TransformedRecord) (db : DB) (r : TransformedRecord),
      (∀ r' ∈ t, r.base.sku ≠ r'.base.sku) →
      agreesP now db r ∧ agreesI now db r →
      agreesP now (t.foldl (load_db_step cmap pmap now) db) r
    ∧ agreesI now (t.foldl (load_db_step cmap pmap now) db) r
  | [], db, r => fun _ h => h
  | x :: t, db, r => fun hne h => by
    rw [List.foldl_cons]
    exact agrees_foldl_frame cmap pmap now t _ r
      (fun r' hr' => hne r' (List.mem_cons_of_mem _ hr'))
      (agrees_step cmap pmap now db r x (hne x (List.mem_cons_self _ _)) h)

theorem foldl_agrees_all (cmap pmap : List (String × Nat)) (now : Nat) :
    ∀ (df : List TransformedRecord) (db : DB),
      (df.map fun r => r.base.sku).Nodup →
      ∀ r ∈ df, agreesP now (df.foldl (load_db_step cmap pmap now) db) r
              ∧ agreesI now (df.foldl (load_db_step cmap pmap now) db) r
  | [], db => by
    intro _ r hr
    simp at hr
  | x :: t, db => by
    intro hnd r hr
    rw [List.map_cons, List.nodup_cons] at hnd
    rw [List.foldl_cons]
    rcases List.mem_cons.mp hr with rfl | hr'
    · exact agrees_foldl_frame cmap pmap now t _ r
        (fun r' hr' heq => hnd.1 (heq ▸ List.mem_map_of_mem _ hr'))
        (load_db_step_agrees cmap pmap now db r)
    · exact foldl_agrees_all cmap pmap now t _ hnd.2 r hr'

theorem load_db_step_id (cmap pmap : List (String × Nat)) (now : Nat)
    (db : DB) (r : TransformedRecord)
    (hP : agreesP now db r) (hI : agreesI now db r) :
    load_db_step cmap pmap now db r = db := by
  obtain ⟨p, hp, hp1, hp2, hp3, hp4⟩ := hP
  obtain ⟨i, hi, hi1, hi2, hi3, hi4⟩ := hI
  have hupdP : (fun q => { q with
      nombre := r.base.nombre
      precio_compra := r.base.precio_compra
      precio_venta := r.base.precio_venta
      updated_at := now }) p = p := by
    cases p
    simp only at hp1 hp2 hp3 hp4
    simp [hp1, hp2, hp3, hp4]
  have hupdI : (fun q => { q with
      stock_actual := r.base.stock_actual
      stock_minimo := r.base.stock_minimo
      ubicacion := r.base.ubicacion
      updated_at := now }) i = i := by
    cases i
    simp only at hi1 hi2 hi3 hi4
    simp [hi1, hi2, hi3, hi4]
  show { db with
          productos := (upsert_producto r (resolve_id cmap r.base.categoria).1
            (resolve_id pmap r.base.proveedor).1 now db.productos).1
          inventario := upsert_inventario r now db.inventario } = db
  rw [upsert_producto_fst, upsert_inventario_eq,
    alistUpsert_id _ _ _ db.productos p hp hupdP,
    alistUpsert_id _ _ _ db.inventario i hi hupdI]

theorem foldl_id (cmap pmap : List (String × Nat)) (now : Nat) :
    ∀ (df : List TransformedRecord) (db : DB),
      (∀ r ∈ df, agreesP now db r ∧ agreesI now db r) →
      df.foldl (load_db_step cmap pmap now) db = db
  | [], db => fun _ => rfl
  | x :: t, db => fun h => by
    rw [List.foldl_cons,
      load_db_step_id cmap pmap now db x (h x (List.mem_cons_self _ _)).1
        (h x (List.mem_cons_self _ _)).2]
    exact foldl_id cmap pmap now t db (fun r hr => h r (List.mem_cons_of_mem _ hr))

/-- Claim C5 counterexample: after loading the one-record batch twice, the
second run's counters report the record as newly inserted (procesados = 1) and
nothing as updated (actualizados = 0) — not all-updated as claimed — because
the conflict-update path also reports row count 1, which line 201 treats as a
new product. -/
theorem c5_counterexample :
    (load_to_database (fun _ => false) 0 [tA]
        (load_to_database (fun _ => false) 0 [tA] db0).db).productos_actualizados = 0
  ∧ (load_to_database (fun _ => false) 0 [tA]
        (load_to_database (fun _ => false) 0 [tA] db0).db).productos_procesados = 1 := by
  constructor <;> rfl

/-- Claim C5 (amended): for a batch with pairwise distinct SKUs and no store
errors, loading twice yields the same end-state store; both runs succeed, and
the second run's counters (derived from the driver's row count, which is 1 for
the insert and the conflict-update path alike) report every record as newly
inserted and none as updated — as do the first run's. -/
theorem c5_load_idempotent (now : Nat) (df : List TransformedRecord) (db : DB)
    (h : (df.map fun r => r.base.sku).Nodup) :
    (load_to_database (fun _ => false) now df
        (load_to_database (fun _ => false) now df db).db).db
      = (load_to_database (fun _ => false) now df db).db
  ∧ (load_to_database (fun _ => false) now df db).success = true
  ∧ (load_to_database (fun _ => false) now df
        (load_to_database (fun _ => false) now df db).db).success = true
  ∧ (load_to_database (fun _ => false) now df
        (load_to_database (fun _ => false) now df db).db).productos_procesados = df.length
  ∧ (load_to_database (fun _ => false) now df
        (load_to_database (fun _ => false) now df db).db).productos_actualizados = 0
  ∧ (load_to_database (fun _ => false) now df db).productos_procesados = df.length
  ∧ (load_to_database (fun _ => false) now df db).productos_actualizados = 0 := by
  have hrun1 := load_to_database_ok (fun _ => false) now df db (fun j _ => rfl)
  have hdb1 : (load_to_database (fun _ => false) now df db).db
      = df.foldl (load_db_step (buildNameMap db.categorias)
          (buildNameMap db.proveedores) now) db := by
    rw [hrun1]
    exact foldl_db _ _ _ df _
  have hcat : (load_to_database (fun _ => false) now df db).db.categorias = db.categorias := by
    rw [hdb1]
    exact (foldl_db_step_tables _ _ _ df db).1
  have hprov : (load_to_database (fun _ => false) now df db).db.proveedores
      = db.proveedores := by
    rw [hdb1]
    exact (foldl_db_step_tables _ _ _ df db).2
  have hrun2 := load_to_database_ok (fun _ => false) now df
    ((load_to_database (fun _ => false) now df db).db) (fun j _ => rfl)
  refine ⟨?_, ?_, ?_, ?_, ?_, ?_, ?_⟩
  · have hdb2 : (load_to_database (fun _ => false) now df
        ((load_to_database (fun _ => false) now df db).db)).db
        = df.foldl (load_db_step
            (buildNameMap ((load_to_database (fun _ => false) now df db).db).categorias)
            (buildNameMap ((load_to_database (fun _ => false) now df db).db).proveedores) now)
          ((load_to_database (fun _ => false) now df db).db) := by
      rw [hrun2]
      exact foldl_db _ _ _ df _
    rw [hdb2, hcat, hprov, hdb1]
    exact foldl_id _ _ _ df _
      (foldl_agrees_all (buildNameMap db.categorias) (buildNameMap db.proveedores) now df db h)
  · rw [hrun1]
  · rw [hrun2]
  · rw [hrun2, (foldl_counters _ _ _ df _).1]
    simp
  · rw [hrun2, (foldl_counters _ _ _ df _).2]
  · rw [hrun1, (foldl_counters _ _ _ df _).1]
    simp
  · rw [hrun1, (foldl_counters _ _ _ df _).2]

/-- Claim C5 witness: the two-record batch with distinct SKUs loaded twice
over `db0` keeps the store fixed on the second run, with counters (2, 0). -/
theorem c5_witness :
    (load_to_database (fun _ => false) 3 [tA, tB]
        (load_to_database (fun _ => false) 3 [tA, tB] db0).db).db
      = (load_to_database (fun _ => false) 3 [tA, tB] db0).db
  ∧ (load_to_database (fun _ => false) 3 [tA, tB]
        (load_to_database (fun _ => false) 3 [tA, tB] db0).db).productos_procesados = 2
  ∧ (load_to_database (fun _ => false) 3 [tA, tB]
        (load_to_database (fun _ => false) 3 [tA, tB] db0).db).productos_actualizados = 0 :=
  ⟨(c5_load_idempotent 3 [tA, tB] db0 (by decide)).1,
   (c5_load_idempotent 3 [tA, tB] db0 (by decide)).2.2.2.1,
   (c5_load_idempotent 3 [tA, tB] db0 (by decide)).2.2.2.2.1⟩

/-! ## Report-phase lemmas -/

theorem charListLe_total : ∀ xs ys, charListLe xs ys = true ∨ charListLe ys xs = true
  | [], _ => Or.inl rfl
  | _ :: _, [] => Or.inr rfl
  | x :: xs, y :: ys => by
    unfold charListLe
    by_cases h1 : x.toNat < y.toNat
    · left
      rw [if_pos h1]
    · by_cases h2 : y.toNat < x.toNat
      · right
        rw [if_pos h2]
      · rw [if_neg h1, if_neg h2, if_neg h2, if_neg h1]
        exact charListLe_total xs ys

theorem charListLe_trans : ∀ xs ys zs, charListLe xs ys = true → charListLe ys zs = true →
    charListLe xs zs = true
  | [], _, _ => fun _ _ => rfl
  | _ :: _, [], _ => fun h _ => by cases h
  | _ :: _, _ :: _, [] => fun _ h => by cases h
  | x :: xs, y :: ys, z :: zs => fun h1 h2 => by
    unfold charListLe at h1 h2 ⊢
    by_cases hxy : x.toNat < y.toNat
    · rw [if_pos hxy] at h1
      by_cases hyz : y.toNat < z.toNat
      · rw [if_pos (by omega : x.toNat < z.toNat)]
      · rw [if_neg hyz] at h2
        by_cases hzy : z.toNat < y.toNat
        · rw [if_pos hzy] at h2
          cases h2
        · rw [if_pos (by omega : x.toNat < z.toNat)]
    · rw [if_neg hxy] at h1
      by_cases hyx : y.toNat < x.toNat
      · rw [if_pos hyx] at h1
        cases h1
      · rw [if_neg hyx] at h1
        by_cases hyz : y.toNat < z.toNat
        · rw [if_pos (by omega : x.toNat < z.toNat)]
        · rw [if_neg hyz] at h2
          by_cases hzy : z.toNat < y.toNat
          · rw [if_pos hzy] at h2
            cases h2
          · rw [if_neg hzy] at h2
            rw [if_neg (by omega : ¬ x.toNat < z.toNat),
              if_neg (by omega : ¬ z.toNat < x.toNat)]
            exact charListLe_trans xs ys zs h1 h2

instance : IsTotal ReportRow reportLe where
  total a b := by
    unfold reportLe
    rcases Nat.lt_trichotomy a.stock_actual b.stock_actual with h | h | h
    · exact Or.inl (Or.inl h)
    · rcases charListLe_total a.nombre.data b.nombre.data with h' | h'
      · exact Or.inl (Or.inr ⟨h, h'⟩)
      · exact Or.inr (Or.inr ⟨h.symm, h'⟩)
    · exact Or.inr (Or.inl h)

instance : IsTrans ReportRow reportLe where
  trans a b c hab hbc := by
    unfold reportLe at *
    rcases hab with h1 | ⟨h1, h1'⟩ <;> rcases hbc with h2 | ⟨h2, h2'⟩
    · exact Or.inl (h1.trans h2)
    · exact Or.inl (h2 ▸ h1)
    · exact Or.inl (h1 ▸ h2)
    · exact Or.inr ⟨h1.trans h2, charListLe_trans _ _ _ h1' h2'⟩

theorem mem_qualifying {db : DB} {row : ReportRow} (h : row ∈ qualifying db) :
    row.stock_actual ≤ row.stock_minimo
  ∧ row.estado = estado_reporte row.stock_actual row.stock_minimo := by
  unfold qualifying at h
  rcases List.mem_map.mp h with ⟨t, ht, rfl⟩
  rcases List.mem_filter.mp ht with ⟨_, hcond⟩
  simp only [Bool.and_eq_true, decide_eq_true_eq] at hcond
  exact ⟨hcond.1, rfl⟩

/-- Claim C9: the stock report consists exactly of the qualifying joined rows
(active products with current stock ≤ minimum stock, selected columns and
re-derived two-tier status: SIN_STOCK at stock 0, otherwise CRÍTICO — NORMAL
never appears), sorted ascending by current stock with name as tie-break, and
is empty (not an error) when nothing qualifies. -/
theorem c9_stock_report (db : DB) :
    List.Perm (generate_stock_report db) (qualifying db)
  ∧ List.Sorted reportLe (generate_stock_report db)
  ∧ (∀ row ∈ generate_stock_report db, row.stock_actual ≤ row.stock_minimo)
  ∧ (∀ row ∈ generate_stock_report db,
       (row.stock_actual = 0 → row.estado = "SIN_STOCK")
     ∧ (0 < row.stock_actual → row.estado = "CRÍTICO"))
  ∧ (∀ row ∈ generate_stock_report db,
       row.estado = "SIN_STOCK" ∨ row.estado = "CRÍTICO")
  ∧ (qualifying db = [] → generate_stock_report db = []) := by
  have hmemq : ∀ row ∈ generate_stock_report db, row ∈ qualifying db := fun row hr =>
    (List.perm_insertionSort reportLe (qualifying db)).mem_iff.mp hr
  refine ⟨List.perm_insertionSort reportLe (qualifying db),
    List.sorted_insertionSort reportLe (qualifying db), ?_, ?_, ?_, ?_⟩
  · intro row hr
    exact (mem_qualifying (hmemq row hr)).1
  · intro row hr
    obtain ⟨hle, hest⟩ := mem_qualifying (hmemq row hr)
    constructor
    · intro h0
      rw [hest]
      unfold estado_reporte
      rw [if_pos h0]
    · intro hpos
      rw [hest]
      unfold estado_reporte
      rw [if_neg (by omega), if_pos hle]
  · intro row hr
    obtain ⟨hle, hest⟩ := mem_qualifying (hmemq row hr)
    rcases Nat.eq_zero_or_pos row.stock_actual with h0 | hpos
    · left
      rw [hest]
      unfold estado_reporte
      rw [if_pos h0]
    · right
      rw [hest]
      unfold estado_reporte
      rw [if_neg (by omega), if_pos hle]
  · intro hq
    unfold generate_stock_report
    rw [hq]
    rfl

/-- Claim C9 witness: over the concrete store the report returns exactly the
three qualifying rows, ordered stock 0 first and the stock-3 tie broken
alphabetically (A before B), with the inactive and the well-stocked product
absent; the row at stock 0 carries the SIN_STOCK status. -/
theorem c9_witness :
    generate_stock_report dbR = [repS3, repS2, repS1]
  ∧ (repS3.estado = "SIN_STOCK" ∨ repS3.estado = "CRÍTICO") :=
  ⟨by decide, (c9_stock_report dbR).2.2.2.2.1 repS3 (by decide)⟩

end Autoparts
